import Mathlib

/-!
# Verification of the matrix-oracle discovery resolvers

Shallow embedding of `src/server.rs` and `src/client.rs` of the
`famedly/matrix-oracle` crate.  Network effects (HTTP send, DNS SRV
lookup, DNS address lookup) and the external parsers from the Rust
standard library (`IpAddr`/`SocketAddr` string parsing, `Url` parsing)
are modelled as explicit environment parameters; everything the crate
itself computes (`split_port`, the ordered decision procedure of
`Resolver::resolve`, SRV record selection and formatting,
`Resolver::socket`, `client::Resolver::resolve`) is translated
faithfully from the source.
-/

namespace MatrixOracle

/-- Model of `std::net::IpAddr`: a v4 or v6 address (components abstract). -/
inductive IpAddr where
  | v4 (a b c d : Nat)
  | v6 (a b c d e f g h : Nat)
  deriving DecidableEq, Repr

/-- Model of `std::net::SocketAddr`: an IP address with a port. -/
structure SocketAddr where
  ip : IpAddr
  port : Nat
  deriving DecidableEq, Repr

/-- Drop one optional leading `+` sign, as `u16::from_str` allows. -/
def stripPlus (cs : List Char) : List Char :=
  if cs.head? = some '+' then cs.tail else cs

/-- The digit phase of `u16::from_str`: one or more ASCII digits whose
value is below `2^16`; anything else fails. -/
def parseU16Digits (ds : List Char) : Option Nat :=
  if ds = [] then none
  else if ds.all (fun c => c.isDigit) then
    let v := ds.foldl (fun acc c => acc * 10 + (c.toNat - 48)) 0
    if v < 65536 then some v else none
  else none

/-- Rust's `u16::from_str`, as used by `split_port`'s `port.parse()`:
an optional leading `+`, then one or more ASCII digits, value below
`2^16`; anything else fails. -/
def parseU16 (s : String) : Option Nat :=
  parseU16Digits (stripPlus s.toList)

/-- Rust's `str::split(sep)` on a single-character separator, producing
the list of (possibly empty) pieces between occurrences of `sep`. -/
def splitChar (sep : Char) : List Char → List (List Char)
  | [] => [[]]
  | c :: rest =>
    if c = sep then [] :: splitChar sep rest
    else
      match splitChar sep rest with
      | [] => [[c]]
      | x :: xs => (c :: x) :: xs

/-- `split_port` from `src/server.rs`: split the string on `:`; exactly
two pieces whose second parses as a `u16` give `some (host, port)`. -/
def split_port (host : String) : Option (String × Nat) :=
  match splitChar ':' host.toList with
  | [h, p] =>
    match parseU16 (String.mk p) with
    | some port => some (String.mk h, port)
    | none => none
  | _ => none

/-- The `ServerWellKnown` document of `src/server.rs`: field
`m.server`, the delegated server name. -/
structure ServerWellKnown where
  server : String
  deriving DecidableEq, Repr

/-- The `Server` enum of `src/server.rs` (resolved server name). -/
inductive Server where
  /-- IP address with implicit default port (8448). -/
  | Ip (addr : IpAddr)
  /-- IP address and explicit port. -/
  | Socket (addr : SocketAddr)
  /-- Host string with implicit default port (8448). -/
  | Host (host : String)
  /-- Host string with explicit port. -/
  | HostPort (host : String)
  /-- Address from SRV record, hostname from server name. -/
  | Srv (addr : String) (host : String)
  deriving DecidableEq, Repr

/-- The `error::Error` of `src/error.rs`: the only variant wraps an
HTTP error (the connect failure propagated by `well_known`). -/
inductive Error where
  | Http
  deriving DecidableEq, Repr

/-- An I/O event performed during resolution, used to account for the
network round trips a run makes. -/
inductive Event where
  /-- One HTTP GET of the given URL. -/
  | http (url : String)
  /-- One DNS SRV query of the given name. -/
  | dns (queryName : String)
  /-- One DNS forward address (`lookup_ip`) query of the given host. -/
  | dnsA (host : String)
  deriving DecidableEq, Repr

/-- Outcome of the HTTP `send()` of the well-known request, as the code
distinguishes it: a connect-level failure, any other send failure, or a
response.  A response carries its status code and the result of
attempting to deserialize its body as a `ServerWellKnown` (the outcome
of `response.json::<ServerWellKnown>()`). -/
inductive SendOutcome where
  | connectError
  | otherError
  | response (status : Nat) (doc : Option ServerWellKnown)
  deriving DecidableEq, Repr

/-- A single SRV record as returned by the DNS resolver. -/
structure SrvRecord where
  priority : Nat
  weight : Nat
  port : Nat
  /-- The ASCII rendering of the record's target name
  (`srv.target().to_ascii()`). -/
  target : String
  deriving DecidableEq, Repr

/-- Environment of `server::Resolver`: the injected HTTP client and DNS
resolver.  `sendWellKnown` is keyed by the requested URL; `srv` is
keyed by the full SRV query name and returns `none` on lookup error. -/
structure ServerEnv where
  sendWellKnown : String → SendOutcome
  srv : String → Option (List SrvRecord)

/-- The external literal parsers used by `resolve`
(`str::parse::<SocketAddr>` and `str::parse::<IpAddr>`). -/
structure Parsers where
  socketAddr : String → Option SocketAddr
  ipAddr : String → Option IpAddr

/-- The URL `well_known` fetches for a name (production path). -/
def wellKnownUrl (name : String) : String :=
  "https://" ++ name ++ "/.well-known/matrix/server"

/-- `Resolver::well_known` from `src/server.rs`: GET the well-known
URL; a connect-level send failure is returned as an error, any other
send failure gives `none`, and a response gives the result of parsing
its body as `ServerWellKnown` — the status code is never consulted.
Also returns the I/O trace of the call. -/
def well_known (env : ServerEnv) (name : String) :
    Except Error (Option ServerWellKnown) × List Event :=
  let r : Except Error (Option ServerWellKnown) :=
    match env.sendWellKnown (wellKnownUrl name) with
    | .connectError => .error .Http
    | .otherError => .ok none
    | .response _ doc => .ok doc
  (r, [.http (wellKnownUrl name)])

/-- The SRV query name `_matrix._tcp.<name>`. -/
def srvQueryName (name : String) : String :=
  "_matrix._tcp." ++ name

/-- One comparison step of `min_by_key`: keep the current best unless
the new record's priority is strictly lower. -/
def minStep (best x : SrvRecord) : SrvRecord :=
  if x.priority < best.priority then x else best

/-- Rust's `Iterator::min_by_key` on the priority field: the first
record of minimum priority, `none` on an empty list. -/
def selectSrv : List SrvRecord → Option SrvRecord
  | [] => none
  | r :: rs => some (rs.foldl minStep r)

/-- Fuel-indexed decimal digit rendering: emit the digits of `n / 10`
followed by the final digit of `n`.  The fuel argument only makes the
recursion structural; `n + 1` units always suffice. -/
def natToDecimalAux : Nat → Nat → List Char
  | 0, _ => []
  | fuel + 1, n =>
    if n < 10 then [Char.ofNat (48 + n)]
    else natToDecimalAux fuel (n / 10) ++ [Char.ofNat (48 + n % 10)]

/-- Rust's `u16` `Display` rendering: the decimal digits of `n`. -/
def natToDecimalList (n : Nat) : List Char :=
  natToDecimalAux (n + 1) n

/-- Decimal rendering of a natural number as a string. -/
def natToDecimal (n : Nat) : String :=
  String.mk (natToDecimalList n)

/-- `target.trim_end_matches('.')`: remove every trailing `.`. -/
def trimTrailingDots (s : String) : String :=
  String.mk ((s.toList.reverse.dropWhile (fun c => c = '.')).reverse)

/-- The string `srv_lookup` builds from a chosen record:
`"<target-without-trailing-dot>:<port>"`. -/
def srvFormat (r : SrvRecord) : String :=
  trimTrailingDots r.target ++ ":" ++ natToDecimal r.port

/-- `Resolver::srv_lookup` from `src/server.rs`: query
`_matrix._tcp.<name>`; on lookup error give `none`, otherwise pick a
record of lowest priority and format it.  Also returns the I/O trace. -/
def srv_lookup (env : ServerEnv) (name : String) :
    Option String × List Event :=
  let ev : List Event := [.dns (srvQueryName name)]
  match env.srv (srvQueryName name) with
  | none => (none, ev)
  | some records => ((selectSrv records).map srvFormat, ev)

/-- `Resolver::resolve` from `src/server.rs`: the ordered server-name
decision procedure.  Returns the result together with the trace of
network round trips performed. -/
def resolve (P : Parsers) (env : ServerEnv) (name : String) :
    Except Error Server × List Event :=
  -- 1. The host is an ip literal
  match P.socketAddr name with
  | some addr => (.ok (.Socket addr), [])
  | none =>
  match P.ipAddr name with
  | some addr => (.ok (.Ip addr), [])
  | none =>
  -- 2. The host is not an ip literal, but includes a port
  if (split_port name).isSome then (.ok (.HostPort name), [])
  else
    -- 3. Query the .well-known endpoint
    let wkr := well_known env name
    match wkr.1 with
    | .error e => (.error e, wkr.2)
    | .ok (some wk) =>
      -- 3.1 delegated_hostname is an ip literal
      match P.socketAddr wk.server with
      | some addr => (.ok (.Socket addr), wkr.2)
      | none =>
      match P.ipAddr wk.server with
      | some addr => (.ok (.Ip addr), wkr.2)
      | none =>
      -- 3.2 delegated_hostname includes a port
      if (split_port wk.server).isSome then (.ok (.HostPort wk.server), wkr.2)
      else
        -- 3.3 Look up SRV record / 3.4 use hostname in .well-known
        let sl := srv_lookup env wk.server
        match sl.1 with
        | some s => (.ok (.Srv s wk.server), wkr.2 ++ sl.2)
        | none => (.ok (.Host wk.server), wkr.2 ++ sl.2)
    | .ok none =>
      -- 4. The .well-known lookup failed, query SRV / 5. use hostname
      let sl := srv_lookup env name
      match sl.1 with
      | some s => (.ok (.Srv s name), wkr.2 ++ sl.2)
      | none => (.ok (.Host name), wkr.2 ++ sl.2)

/-- Environment of `Resolver::socket`: the DNS forward lookup
(`lookup_ip`), returning `none` on resolver error. -/
structure AddrEnv where
  lookupIp : String → Option (List IpAddr)

/-- Outcome of `Resolver::socket`.  `panicked` models the `expect`
panic on a `HostPort`/`Srv` string without a `host:port` shape;
`resolveError` models a propagated `lookup_ip` error; `noRecords`
models the `ResolveErrorKind::Message("No records")` error. -/
inductive SocketOutcome where
  | panicked
  | resolveError
  | noRecords
  | ok (addr : SocketAddr)
  deriving DecidableEq, Repr

/-- The forward-lookup-and-pair tail of `Resolver::socket`: look up the
host, take the first address, pair it with the known port. -/
def lookupAndPair (env : AddrEnv) (host : String) (port : Nat) :
    SocketOutcome × List Event :=
  match env.lookupIp host with
  | none => (.resolveError, [.dnsA host])
  | some [] => (.noRecords, [.dnsA host])
  | some (ip :: _) => (.ok ⟨ip, port⟩, [.dnsA host])

/-- `Resolver::socket` from `src/server.rs`: turn a `Server` into a
socket address.  `Ip`/`Socket` resolve directly; `Host` looks up the
host with default port 8448; `HostPort`/`Srv` split their string with
`split_port` (panicking if it fails) and look up the host part. -/
def socket (env : AddrEnv) (server : Server) : SocketOutcome × List Event :=
  match server with
  | .Ip ip => (.ok ⟨ip, 8448⟩, [])
  | .Socket s => (.ok s, [])
  | .Host host => lookupAndPair env host 8448
  | .HostPort host =>
    match split_port host with
    | some (h, p) => lookupAndPair env h p
    | none => (.panicked, [])
  | .Srv addr _ =>
    match split_port addr with
    | some (h, p) => lookupAndPair env h p
    | none => (.panicked, [])

/-- `HomeserverInfo` of `src/client.rs`: the base URL for
client-server API endpoints. -/
structure HomeserverInfo where
  base_url : String
  deriving DecidableEq, Repr

/-- `IdentityServerInfo` of `src/client.rs`: the base URL for identity
server API endpoints. -/
structure IdentityServerInfo where
  base_url : String
  deriving DecidableEq, Repr

/-- The `ClientWellKnown` document of `src/client.rs`: `m.homeserver`
and optional `m.identity_server`. -/
structure ClientWellKnown where
  homeserver : HomeserverInfo
  identity_server : Option IdentityServerInfo
  deriving DecidableEq, Repr

/-- The `Versions` document of `src/client.rs`, used only to validate
that the `/versions` response deserializes. -/
structure Versions where
  versions : List String
  unstable_features : List (String × Bool)
  deriving DecidableEq, Repr

/-- `client::error::FailError`: a malformed URL or a failed HTTP
validation of a delegated target. -/
inductive FailError where
  | Url
  | Http
  deriving DecidableEq, Repr

/-- `client::error::Error`: `Prompt` (FAIL_PROMPT) or `Fail`
(FAIL_ERROR) wrapping a `FailError`. -/
inductive ClientError where
  | Prompt
  | Fail (e : FailError)
  deriving DecidableEq, Repr

/-- An HTTP response in the client path: the status code, and the
outcomes of attempting to deserialize its body as each document type
(`response.json::<ClientWellKnown>()` / `json::<Versions>()`). -/
structure ClientResponse where
  status : Nat
  clientDoc : Option ClientWellKnown
  versionsDoc : Option Versions
  deriving DecidableEq, Repr

/-- Environment of `client::Resolver`: `Url::parse`, `Url::join` (both
external, `none` = `url::ParseError`) and the HTTP client's `send`
(`none` = transport error). -/
structure ClientEnv where
  parseUrl : String → Option String
  joinUrl : String → String → Option String
  send : String → Option ClientResponse

/-- `client::Resolver::resolve` from `src/client.rs`: fetch
`.well-known/matrix/client` for the name, treat 404 as "no
delegation", otherwise parse the document, validate the homeserver's
`/versions` endpoint and, if present, the identity server.  Returns
the result with the trace of HTTP requests sent. -/
def clientResolve (env : ClientEnv) (name : String) :
    Except ClientError String × List Event :=
  match env.parseUrl ("https://" ++ name) with
  | none => (.error (.Fail .Url), [])
  | some url =>
  match env.joinUrl url ".well-known/matrix/client" with
  | none => (.error (.Fail .Url), [])
  | some wkUrl =>
  -- 3. make a GET request to the well-known endpoint
  match env.send wkUrl with
  | none => (.error .Prompt, [.http wkUrl])
  | some resp =>
  -- a. if the returned status code is 404, then IGNORE
  if resp.status = 404 then (.ok url, [.http wkUrl])
  else
    -- c. parse the response as json
    match resp.clientDoc with
    | none => (.error .Prompt, [.http wkUrl])
    | some wk =>
    -- d+e.i extract base_url and parse it as a URL
    match env.parseUrl wk.homeserver.base_url with
    | none => (.error (.Fail .Url), [.http wkUrl])
    | some base =>
    -- e.ii validate versions endpoint
    match env.joinUrl base "_matrix/client/versions" with
    | none => (.error (.Fail .Url), [.http wkUrl])
    | some vUrl =>
    match env.send vUrl with
    | none => (.error (.Fail .Http), [.http wkUrl, .http vUrl])
    | some vresp =>
    match vresp.versionsDoc with
    | none => (.error (.Fail .Http), [.http wkUrl, .http vUrl])
    | some _ =>
    -- f. if present, validate identity server endpoint
    match wk.identity_server with
    | none => (.ok base, [.http wkUrl, .http vUrl])
    | some ident =>
      match env.parseUrl ident.base_url with
      | none => (.error (.Fail .Url), [.http wkUrl, .http vUrl])
      | some iurl =>
      match env.joinUrl iurl "_matrix/identity/api/v1" with
      | none => (.error (.Fail .Url), [.http wkUrl, .http vUrl])
      | some ivUrl =>
      match env.send ivUrl with
      | none => (.error (.Fail .Http), [.http wkUrl, .http vUrl, .http ivUrl])
      | some iresp =>
        -- error_for_status: client or server error statuses fail
        if 400 ≤ iresp.status ∧ iresp.status < 600 then
          (.error (.Fail .Http), [.http wkUrl, .http vUrl, .http ivUrl])
        else (.ok base, [.http wkUrl, .http vUrl, .http ivUrl])

/-- Replace a record's weight field (used to state that `srv_lookup`
never consults the weight). -/
def reweight (g : SrvRecord → Nat) (r : SrvRecord) : SrvRecord :=
  { r with weight := g r }

/-! ## Concrete fixture environments used by witnesses and counterexamples -/

/-- An environment whose SRV answer for `example.test` is a single
record with a colon inside its target name. -/
def colonTargetEnv : ServerEnv :=
  ⟨fun _ => .otherError,
   fun q =>
      if q = srvQueryName "example.test" then some [⟨0, 0, 1, "a:b."⟩]
      else none⟩

/-- An environment whose SRV answer for `example.test` is a single
well-formed record pointing at `srv.dest.` port 8448. -/
def goodSrvEnv : ServerEnv :=
  ⟨fun _ => .otherError,
   fun q =>
      if q = srvQueryName "example.test" then some [⟨0, 0, 8448, "srv.dest."⟩]
      else none⟩

/-- The two-record SRV answer used by the C5 witness: the second record
has the lower priority. -/
def twoRecords : List SrvRecord :=
  [⟨5, 7, 100, "first.example."⟩, ⟨2, 9, 200, "second.example."⟩]

/-- An environment whose SRV answer for `example.test` is
`twoRecords`. -/
def twoRecordEnv : ServerEnv :=
  ⟨fun _ => .otherError,
   fun q => if q = srvQueryName "example.test" then some twoRecords else none⟩

/-- How many HTTP round trips a trace holds. -/
def countHttp (l : List Event) : Nat :=
  l.countP fun e => match e with | .http _ => true | _ => false

/-- How many DNS SRV round trips a trace holds. -/
def countDns (l : List Event) : Nat :=
  l.countP fun e => match e with | .dns _ => true | _ => false

/-- Parsers that recognise no literal at all. -/
def noParsers : Parsers := ⟨fun _ => none, fun _ => none⟩

/-- Parsers that classify every name as the socket literal `1.2.3.4:9999`. -/
def sockParsers : Parsers := ⟨fun _ => some ⟨.v4 1 2 3 4, 9999⟩, fun _ => none⟩

/-- Parsers that classify every name as the bare IP literal `1.2.3.4`. -/
def ipParsers : Parsers := ⟨fun _ => none, fun _ => some (.v4 1 2 3 4)⟩

/-- A server environment whose well-known fetch fails benignly and
whose SRV lookups all error out. -/
def quietEnv : ServerEnv := ⟨fun _ => .otherError, fun _ => none⟩

/-- A server environment whose well-known send always fails at the
connect level. -/
def connectFailEnv : ServerEnv := ⟨fun _ => .connectError, fun _ => none⟩

/-- An environment answering the well-known fetch for `example.test`
with HTTP status 404 and a body that parses as a delegation to
`dest.test`; every SRV lookup errors out. -/
def badStatusEnv : ServerEnv :=
  ⟨fun u =>
      if u = wellKnownUrl "example.test" then .response 404 (some ⟨"dest.test"⟩)
      else .otherError,
   fun _ => none⟩

/-- An environment answering the well-known fetch for `host.example`
with HTTP status 404 and a body that parses as a delegation to
`delegated.example`; every SRV lookup errors out. -/
def delegating404Env : ServerEnv :=
  ⟨fun u =>
      if u = wellKnownUrl "host.example" then
        .response 404 (some ⟨"delegated.example"⟩)
      else .otherError,
   fun _ => none⟩

/-- An environment answering the well-known fetch for `host.example`
with HTTP status 404 and an unparseable body; every SRV lookup errors
out. -/
def plain404Env : ServerEnv :=
  ⟨fun u =>
      if u = wellKnownUrl "host.example" then .response 404 none
      else .otherError,
   fun _ => none⟩

/-- An environment answering the well-known fetch for `example.test`
with status 200 and a delegation to `dest.example:9999`. -/
def delegatingHostPortEnv : ServerEnv :=
  ⟨fun u =>
      if u = wellKnownUrl "example.test" then
        .response 200 (some ⟨"dest.example:9999"⟩)
      else .otherError,
   fun _ => none⟩

/-- An address-lookup environment returning one address for every
host. -/
def oneAddrEnv : AddrEnv := ⟨fun _ => some [.v4 9 9 9 9]⟩

/-- An address-lookup environment returning an empty answer for every
host. -/
def emptyAddrEnv : AddrEnv := ⟨fun _ => some []⟩

/-- A client environment answering the well-known fetch for
`example.test` with 404. -/
def notFoundClientEnv : ClientEnv :=
  ⟨fun s => some s, fun a b => some (a ++ "/" ++ b),
   fun u =>
     if u = "https://example.test/.well-known/matrix/client" then
       some ⟨404, none, none⟩
     else none⟩

/-- A client environment that delegates `example.test` to
`https://hs.test` and validates its `/versions` endpoint. -/
def happyClientEnv : ClientEnv :=
  ⟨fun s => some s, fun a b => some (a ++ "/" ++ b),
   fun u =>
     if u = "https://example.test/.well-known/matrix/client" then
       some ⟨200, some ⟨⟨"https://hs.test"⟩, none⟩, none⟩
     else if u = "https://hs.test/_matrix/client/versions" then
       some ⟨200, none, some ⟨["r0.0.1"], []⟩⟩
     else none⟩

/-- A client environment that delegates `example.test` to
`https://hs.test` with an identity server `https://id.test`, and
answers both validation requests with status 200. -/
def identClientEnv : ClientEnv :=
  ⟨fun s => some s, fun a b => some (a ++ "/" ++ b),
   fun u =>
     if u = "https://example.test/.well-known/matrix/client" then
       some ⟨200, some ⟨⟨"https://hs.test"⟩, some ⟨"https://id.test"⟩⟩, none⟩
     else if u = "https://hs.test/_matrix/client/versions" then
       some ⟨200, none, some ⟨["r0.0.1"], []⟩⟩
     else if u = "https://id.test/_matrix/identity/api/v1" then
       some ⟨200, none, none⟩
     else none⟩

/-! ## Unfolding lemmas for the effectful operations -/

theorem well_known_snd (env : ServerEnv) (name : String) :
    (well_known env name).2 = [.http (wellKnownUrl name)] := rfl

theorem well_known_fst (env : ServerEnv) (name : String) :
    (well_known env name).1 =
      match env.sendWellKnown (wellKnownUrl name) with
      | .connectError => .error .Http
      | .otherError => .ok none
      | .response _ doc => .ok doc := rfl

theorem well_known_connect (env : ServerEnv) (name : String)
    (h : env.sendWellKnown (wellKnownUrl name) = .connectError) :
    well_known env name = (.error .Http, [.http (wellKnownUrl name)]) := by
  unfold well_known
  rw [h]

theorem well_known_response (env : ServerEnv) (name : String) (st : Nat)
    (doc : Option ServerWellKnown)
    (h : env.sendWellKnown (wellKnownUrl name) = .response st doc) :
    well_known env name = (.ok doc, [.http (wellKnownUrl name)]) := by
  unfold well_known
  rw [h]

theorem well_known_other (env : ServerEnv) (name : String)
    (h : env.sendWellKnown (wellKnownUrl name) = .otherError) :
    well_known env name = (.ok none, [.http (wellKnownUrl name)]) := by
  unfold well_known
  rw [h]

theorem srv_lookup_snd (env : ServerEnv) (name : String) :
    (srv_lookup env name).2 = [.dns (srvQueryName name)] := by
  unfold srv_lookup
  cases env.srv (srvQueryName name) <;> rfl

theorem srv_lookup_fst (env : ServerEnv) (name : String) :
    (srv_lookup env name).1 =
      (env.srv (srvQueryName name)).bind fun records =>
        (selectSrv records).map srvFormat := by
  unfold srv_lookup
  cases env.srv (srvQueryName name) <;> rfl

/-! ## Branch lemmas for `resolve` -/

theorem resolve_socket_lit (P : Parsers) (env : ServerEnv) (name : String)
    (a : SocketAddr) (h : P.socketAddr name = some a) :
    resolve P env name = (.ok (.Socket a), []) := by
  unfold resolve
  rw [h]

theorem resolve_ip_lit (P : Parsers) (env : ServerEnv) (name : String)
    (a : IpAddr) (h1 : P.socketAddr name = none) (h2 : P.ipAddr name = some a) :
    resolve P env name = (.ok (.Ip a), []) := by
  unfold resolve
  rw [h1, h2]

theorem resolve_hostport_lit (P : Parsers) (env : ServerEnv) (name : String)
    (pr : String × Nat) (h1 : P.socketAddr name = none) (h2 : P.ipAddr name = none)
    (h3 : split_port name = some pr) :
    resolve P env name = (.ok (.HostPort name), []) := by
  unfold resolve
  rw [h1, h2, h3]
  rfl

/-- Claim C1: `resolve` classifies literals first, in order and with no
I/O: a name parsing as an IP-with-port returns `Socket`; otherwise a
name parsing as a bare IP returns `Ip`; otherwise a name that
`split_port` accepts (exactly one colon, `u16` suffix) returns
`HostPort` carrying the input name unchanged.  In all three cases the
result is `.ok` (no error) and the I/O trace is empty. -/
theorem claim1_literals_first_no_io :
    (∀ (P : Parsers) (env : ServerEnv) (name : String) (a : SocketAddr),
      P.socketAddr name = some a →
      resolve P env name = (.ok (.Socket a), [])) ∧
    (∀ (P : Parsers) (env : ServerEnv) (name : String) (a : IpAddr),
      P.socketAddr name = none → P.ipAddr name = some a →
      resolve P env name = (.ok (.Ip a), [])) ∧
    (∀ (P : Parsers) (env : ServerEnv) (name : String) (pr : String × Nat),
      P.socketAddr name = none → P.ipAddr name = none →
      split_port name = some pr →
      resolve P env name = (.ok (.HostPort name), [])) :=
  ⟨resolve_socket_lit, resolve_ip_lit, resolve_hostport_lit⟩

theorem resolve_connect_error (P : Parsers) (env : ServerEnv) (name : String)
    (h1 : P.socketAddr name = none) (h2 : P.ipAddr name = none)
    (h3 : split_port name = none)
    (h4 : env.sendWellKnown (wellKnownUrl name) = .connectError) :
    resolve P env name = (.error .Http, [.http (wellKnownUrl name)]) := by
  unfold resolve
  rw [h1, h2, h3, well_known_connect env name h4]
  rfl

theorem resolve_delegated_socket (P : Parsers) (env : ServerEnv) (name : String)
    (st : Nat) (doc : ServerWellKnown) (a : SocketAddr)
    (h1 : P.socketAddr name = none) (h2 : P.ipAddr name = none)
    (h3 : split_port name = none)
    (h4 : env.sendWellKnown (wellKnownUrl name) = .response st (some doc))
    (h5 : P.socketAddr doc.server = some a) :
    resolve P env name = (.ok (.Socket a), [.http (wellKnownUrl name)]) := by
  unfold resolve
  rw [h1, h2, h3, well_known_response env name st (some doc) h4]
  simp only
  rw [h5]
  rfl

theorem resolve_delegated_ip (P : Parsers) (env : ServerEnv) (name : String)
    (st : Nat) (doc : ServerWellKnown) (a : IpAddr)
    (h1 : P.socketAddr name = none) (h2 : P.ipAddr name = none)
    (h3 : split_port name = none)
    (h4 : env.sendWellKnown (wellKnownUrl name) = .response st (some doc))
    (h5 : P.socketAddr doc.server = none) (h6 : P.ipAddr doc.server = some a) :
    resolve P env name = (.ok (.Ip a), [.http (wellKnownUrl name)]) := by
  unfold resolve
  rw [h1, h2, h3, well_known_response env name st (some doc) h4]
  simp only
  rw [h5, h6]
  rfl

theorem resolve_delegated_hostport (P : Parsers) (env : ServerEnv) (name : String)
    (st : Nat) (doc : ServerWellKnown) (pr : String × Nat)
    (h1 : P.socketAddr name = none) (h2 : P.ipAddr name = none)
    (h3 : split_port name = none)
    (h4 : env.sendWellKnown (wellKnownUrl name) = .response st (some doc))
    (h5 : P.socketAddr doc.server = none) (h6 : P.ipAddr doc.server = none)
    (h7 : split_port doc.server = some pr) :
    resolve P env name = (.ok (.HostPort doc.server), [.http (wellKnownUrl name)]) := by
  unfold resolve
  rw [h1, h2, h3, well_known_response env name st (some doc) h4]
  simp only
  rw [h5, h6, h7]
  rfl

theorem resolve_delegated_srv (P : Parsers) (env : ServerEnv) (name : String)
    (st : Nat) (doc : ServerWellKnown) (s : String)
    (h1 : P.socketAddr name = none) (h2 : P.ipAddr name = none)
    (h3 : split_port name = none)
    (h4 : env.sendWellKnown (wellKnownUrl name) = .response st (some doc))
    (h5 : P.socketAddr doc.server = none) (h6 : P.ipAddr doc.server = none)
    (h7 : split_port doc.server = none)
    (h8 : (srv_lookup env doc.server).1 = some s) :
    resolve P env name =
      (.ok (.Srv s doc.server),
       [.http (wellKnownUrl name), .dns (srvQueryName doc.server)]) := by
  unfold resolve
  rw [h1, h2, h3, well_known_response env name st (some doc) h4]
  simp only
  rw [h5, h6, h7]
  simp only [Option.isSome_none, Bool.false_eq_true, if_false, h8,
    srv_lookup_snd]
  rfl

theorem resolve_delegated_host (P : Parsers) (env : ServerEnv) (name : String)
    (st : Nat) (doc : ServerWellKnown)
    (h1 : P.socketAddr name = none) (h2 : P.ipAddr name = none)
    (h3 : split_port name = none)
    (h4 : env.sendWellKnown (wellKnownUrl name) = .response st (some doc))
    (h5 : P.socketAddr doc.server = none) (h6 : P.ipAddr doc.server = none)
    (h7 : split_port doc.server = none)
    (h8 : (srv_lookup env doc.server).1 = none) :
    resolve P env name =
      (.ok (.Host doc.server),
       [.http (wellKnownUrl name), .dns (srvQueryName doc.server)]) := by
  unfold resolve
  rw [h1, h2, h3, well_known_response env name st (some doc) h4]
  simp only
  rw [h5, h6, h7]
  simp only [Option.isSome_none, Bool.false_eq_true, if_false, h8,
    srv_lookup_snd]
  rfl

theorem resolve_fallback_srv (P : Parsers) (env : ServerEnv) (name : String)
    (s : String)
    (h1 : P.socketAddr name = none) (h2 : P.ipAddr name = none)
    (h3 : split_port name = none)
    (h4 : (well_known env name).1 = .ok none)
    (h5 : (srv_lookup env name).1 = some s) :
    resolve P env name =
      (.ok (.Srv s name), [.http (wellKnownUrl name), .dns (srvQueryName name)]) := by
  unfold resolve
  rw [h1, h2, h3]
  simp only [Option.isSome_none, Bool.false_eq_true, if_false, h4, h5,
    well_known_snd, srv_lookup_snd]
  rfl

theorem resolve_fallback_host (P : Parsers) (env : ServerEnv) (name : String)
    (h1 : P.socketAddr name = none) (h2 : P.ipAddr name = none)
    (h3 : split_port name = none)
    (h4 : (well_known env name).1 = .ok none)
    (h5 : (srv_lookup env name).1 = none) :
    resolve P env name =
      (.ok (.Host name), [.http (wellKnownUrl name), .dns (srvQueryName name)]) := by
  unfold resolve
  rw [h1, h2, h3]
  simp only [Option.isSome_none, Bool.false_eq_true, if_false, h4, h5,
    well_known_snd, srv_lookup_snd]
  rfl

/-- Claim C3 (amendable part none): with the literal steps failed and a
delegation document received, `resolve` classifies `doc.server` in
order — socket literal, bare IP, `host:port`, SRV found, SRV not found
— and every outcome is built from `doc.server`, never from the input
name. -/
theorem claim3_delegated_classification :
    ∀ (P : Parsers) (env : ServerEnv) (name : String) (st : Nat)
      (doc : ServerWellKnown),
      P.socketAddr name = none → P.ipAddr name = none →
      split_port name = none →
      env.sendWellKnown (wellKnownUrl name) = .response st (some doc) →
      ((∀ a, P.socketAddr doc.server = some a →
          resolve P env name = (.ok (.Socket a), [.http (wellKnownUrl name)])) ∧
       (∀ a, P.socketAddr doc.server = none → P.ipAddr doc.server = some a →
          resolve P env name = (.ok (.Ip a), [.http (wellKnownUrl name)])) ∧
       (∀ pr, P.socketAddr doc.server = none → P.ipAddr doc.server = none →
          split_port doc.server = some pr →
          resolve P env name =
            (.ok (.HostPort doc.server), [.http (wellKnownUrl name)])) ∧
       (∀ s, P.socketAddr doc.server = none → P.ipAddr doc.server = none →
          split_port doc.server = none → (srv_lookup env doc.server).1 = some s →
          resolve P env name =
            (.ok (.Srv s doc.server),
             [.http (wellKnownUrl name), .dns (srvQueryName doc.server)])) ∧
       (P.socketAddr doc.server = none → P.ipAddr doc.server = none →
          split_port doc.server = none → (srv_lookup env doc.server).1 = none →
          resolve P env name =
            (.ok (.Host doc.server),
             [.http (wellKnownUrl name), .dns (srvQueryName doc.server)]))) := by
  intro P env name st doc h1 h2 h3 h4
  exact
    ⟨fun a h5 => resolve_delegated_socket P env name st doc a h1 h2 h3 h4 h5,
     fun a h5 h6 => resolve_delegated_ip P env name st doc a h1 h2 h3 h4 h5 h6,
     fun pr h5 h6 h7 =>
       resolve_delegated_hostport P env name st doc pr h1 h2 h3 h4 h5 h6 h7,
     fun s h5 h6 h7 h8 =>
       resolve_delegated_srv P env name st doc s h1 h2 h3 h4 h5 h6 h7 h8,
     fun h5 h6 h7 h8 =>
       resolve_delegated_host P env name st doc h1 h2 h3 h4 h5 h6 h7 h8⟩

/-- Totality away from connect failures: whenever the send outcome for
the name's well-known URL is not a connect failure, `resolve` returns
`.ok`. -/
theorem resolve_ok_of_not_connect (P : Parsers) (env : ServerEnv) (name : String)
    (h : env.sendWellKnown (wellKnownUrl name) ≠ .connectError) :
    ∃ s, (resolve P env name).1 = .ok s := by
  cases hs : P.socketAddr name with
  | some a => exact ⟨_, by rw [resolve_socket_lit P env name a hs]⟩
  | none =>
  cases hi : P.ipAddr name with
  | some a => exact ⟨_, by rw [resolve_ip_lit P env name a hs hi]⟩
  | none =>
  cases hp : split_port name with
  | some pr => exact ⟨_, by rw [resolve_hostport_lit P env name pr hs hi hp]⟩
  | none =>
  cases hw : env.sendWellKnown (wellKnownUrl name) with
  | connectError => exact absurd hw h
  | otherError =>
    have h4 : (well_known env name).1 = .ok none := by
      rw [well_known_other env name hw]
    cases hsl : (srv_lookup env name).1 with
    | some s => exact ⟨_, by rw [resolve_fallback_srv P env name s hs hi hp h4 hsl]⟩
    | none => exact ⟨_, by rw [resolve_fallback_host P env name hs hi hp h4 hsl]⟩
  | response st doc =>
    cases doc with
    | none =>
      have h4 : (well_known env name).1 = .ok none := by
        rw [well_known_response env name st none hw]
      cases hsl : (srv_lookup env name).1 with
      | some s => exact ⟨_, by rw [resolve_fallback_srv P env name s hs hi hp h4 hsl]⟩
      | none => exact ⟨_, by rw [resolve_fallback_host P env name hs hi hp h4 hsl]⟩
    | some d =>
      cases hs2 : P.socketAddr d.server with
      | some a =>
        exact ⟨_, by rw [resolve_delegated_socket P env name st d a hs hi hp hw hs2]⟩
      | none =>
      cases hi2 : P.ipAddr d.server with
      | some a =>
        exact ⟨_, by rw [resolve_delegated_ip P env name st d a hs hi hp hw hs2 hi2]⟩
      | none =>
      cases hp2 : split_port d.server with
      | some pr =>
        exact ⟨_,
          by rw [resolve_delegated_hostport P env name st d pr hs hi hp hw hs2 hi2 hp2]⟩
      | none =>
      cases hsl : (srv_lookup env d.server).1 with
      | some s =>
        exact ⟨_,
          by rw [resolve_delegated_srv P env name st d s hs hi hp hw hs2 hi2 hp2 hsl]⟩
      | none =>
        exact ⟨_,
          by rw [resolve_delegated_host P env name st d hs hi hp hw hs2 hi2 hp2 hsl]⟩

/-- Every run's I/O trace is empty, a single HTTP request, or a single
HTTP request followed by a single DNS SRV query. -/
theorem resolve_trace_shape (P : Parsers) (env : ServerEnv) (name : String) :
    (resolve P env name).2 = [] ∨
    (resolve P env name).2 = [.http (wellKnownUrl name)] ∨
    (∃ q, (resolve P env name).2 = [.http (wellKnownUrl name), .dns q]) := by
  cases hs : P.socketAddr name with
  | some a => exact Or.inl (by rw [resolve_socket_lit P env name a hs])
  | none =>
  cases hi : P.ipAddr name with
  | some a => exact Or.inl (by rw [resolve_ip_lit P env name a hs hi])
  | none =>
  cases hp : split_port name with
  | some pr => exact Or.inl (by rw [resolve_hostport_lit P env name pr hs hi hp])
  | none =>
  cases hw : env.sendWellKnown (wellKnownUrl name) with
  | connectError =>
    exact Or.inr (Or.inl (by rw [resolve_connect_error P env name hs hi hp hw]))
  | otherError =>
    have h4 : (well_known env name).1 = .ok none := by
      rw [well_known_other env name hw]
    cases hsl : (srv_lookup env name).1 with
    | some s =>
      exact Or.inr (Or.inr ⟨_, by rw [resolve_fallback_srv P env name s hs hi hp h4 hsl]⟩)
    | none =>
      exact Or.inr (Or.inr ⟨_, by rw [resolve_fallback_host P env name hs hi hp h4 hsl]⟩)
  | response st doc =>
    cases doc with
    | none =>
      have h4 : (well_known env name).1 = .ok none := by
        rw [well_known_response env name st none hw]
      cases hsl : (srv_lookup env name).1 with
      | some s =>
        exact Or.inr (Or.inr ⟨_, by rw [resolve_fallback_srv P env name s hs hi hp h4 hsl]⟩)
      | none =>
        exact Or.inr (Or.inr ⟨_, by rw [resolve_fallback_host P env name hs hi hp h4 hsl]⟩)
    | some d =>
      cases hs2 : P.socketAddr d.server with
      | some a =>
        exact Or.inr
          (Or.inl (by rw [resolve_delegated_socket P env name st d a hs hi hp hw hs2]))
      | none =>
      cases hi2 : P.ipAddr d.server with
      | some a =>
        exact Or.inr
          (Or.inl (by rw [resolve_delegated_ip P env name st d a hs hi hp hw hs2 hi2]))
      | none =>
      cases hp2 : split_port d.server with
      | some pr =>
        exact Or.inr (Or.inl
          (by rw [resolve_delegated_hostport P env name st d pr hs hi hp hw hs2 hi2 hp2]))
      | none =>
      cases hsl : (srv_lookup env d.server).1 with
      | some s =>
        exact Or.inr (Or.inr ⟨_,
          by rw [resolve_delegated_srv P env name st d s hs hi hp hw hs2 hi2 hp2 hsl]⟩)
      | none =>
        exact Or.inr (Or.inr ⟨_,
          by rw [resolve_delegated_host P env name st d hs hi hp hw hs2 hi2 hp2 hsl]⟩)

/-- Claim C2 as amended: a connect-level failure of the well-known send
is the only error; it is propagated exactly when the literal steps
fail.  A send failure other than connect, or a response whose body does
not parse as the document, yields no delegation; a response whose body
parses yields the delegation document regardless of HTTP status; and
every execution whose send outcome is not a connect failure returns a
concrete `Server`. -/
theorem claim2_connect_failure_only_error :
    (∀ (P : Parsers) (env : ServerEnv) (name : String),
      P.socketAddr name = none → P.ipAddr name = none →
      split_port name = none →
      env.sendWellKnown (wellKnownUrl name) = .connectError →
      resolve P env name = (.error .Http, [.http (wellKnownUrl name)])) ∧
    (∀ (P : Parsers) (env : ServerEnv) (name : String),
      env.sendWellKnown (wellKnownUrl name) ≠ .connectError →
      ∃ s, (resolve P env name).1 = .ok s) ∧
    (∀ (env : ServerEnv) (name : String) (st : Nat) (doc : Option ServerWellKnown),
      env.sendWellKnown (wellKnownUrl name) = .response st doc →
      (well_known env name).1 = .ok doc) ∧
    (∀ (env : ServerEnv) (name : String),
      env.sendWellKnown (wellKnownUrl name) = .otherError →
      (well_known env name).1 = .ok none) :=
  ⟨resolve_connect_error, resolve_ok_of_not_connect,
   fun env name st doc h => by rw [well_known_response env name st doc h],
   fun env name h => by rw [well_known_other env name h]⟩

/-- Claim C4 as amended: when the well-known step yields no delegation
(send failure other than connect, or a body that does not parse as the
document — which is how a typical 404 error page behaves), `resolve`
performs the SRV lookup on the original name: a found record gives
`Srv(target, name)`, no record gives `Host(name)`, and neither is an
error.  A 404 response with an unparseable body is one such
no-delegation outcome. -/
theorem claim4_no_delegation_srv_fallback :
    (∀ (P : Parsers) (env : ServerEnv) (name : String),
      P.socketAddr name = none → P.ipAddr name = none →
      split_port name = none →
      (well_known env name).1 = .ok none →
      ((∀ s, (srv_lookup env name).1 = some s →
          resolve P env name =
            (.ok (.Srv s name),
             [.http (wellKnownUrl name), .dns (srvQueryName name)])) ∧
       ((srv_lookup env name).1 = none →
          resolve P env name =
            (.ok (.Host name),
             [.http (wellKnownUrl name), .dns (srvQueryName name)])))) ∧
    (∀ (env : ServerEnv) (name : String),
      env.sendWellKnown (wellKnownUrl name) = .response 404 none →
      (well_known env name).1 = .ok none) :=
  ⟨fun P env name h1 h2 h3 h4 =>
    ⟨fun s h5 => resolve_fallback_srv P env name s h1 h2 h3 h4 h5,
     fun h5 => resolve_fallback_host P env name h1 h2 h3 h4 h5⟩,
   fun env name h => by rw [well_known_response env name 404 none h]⟩

/-- Claim C9: every run of `resolve` performs at most one HTTP round
trip and at most one DNS SRV round trip, and any run classified by the
literal steps performs no I/O at all. -/
theorem claim9_single_shot_io_bounds :
    (∀ (P : Parsers) (env : ServerEnv) (name : String),
      countHttp (resolve P env name).2 ≤ 1 ∧ countDns (resolve P env name).2 ≤ 1) ∧
    (∀ (P : Parsers) (env : ServerEnv) (name : String),
      ((P.socketAddr name).isSome ∨ (P.ipAddr name).isSome ∨
        (split_port name).isSome) →
      (resolve P env name).2 = []) := by
  constructor
  · intro P env name
    rcases resolve_trace_shape P env name with h | h | ⟨q, h⟩ <;>
      rw [h] <;> constructor <;>
      simp [countHttp, countDns, List.countP_cons, List.countP_nil]
  · intro P env name h
    cases hs : P.socketAddr name with
    | some a => rw [resolve_socket_lit P env name a hs]
    | none =>
    cases hi : P.ipAddr name with
    | some a => rw [resolve_ip_lit P env name a hs hi]
    | none =>
    cases hp : split_port name with
    | some pr => rw [resolve_hostport_lit P env name pr hs hi hp]
    | none =>
      rcases h with h | h | h <;> simp [hs, hi, hp] at h

/-- Witness for C1 at concrete inputs. -/
theorem claim1_witness :
    resolve sockParsers quietEnv "example.test" =
      (.ok (.Socket ⟨.v4 1 2 3 4, 9999⟩), []) ∧
    resolve ipParsers quietEnv "example.test" = (.ok (.Ip (.v4 1 2 3 4)), []) ∧
    resolve noParsers quietEnv "example.test:1234" =
      (.ok (.HostPort "example.test:1234"), []) :=
  ⟨claim1_literals_first_no_io.1 sockParsers quietEnv "example.test" _ rfl,
   claim1_literals_first_no_io.2.1 ipParsers quietEnv "example.test" _ rfl rfl,
   claim1_literals_first_no_io.2.2 noParsers quietEnv "example.test:1234"
     ("example.test", 1234) rfl rfl (by decide)⟩

/-- Witness for C2 at concrete inputs: the connect failure is
propagated as the error. -/
theorem claim2_witness :
    resolve noParsers connectFailEnv "example.test" =
      (.error .Http, [.http (wellKnownUrl "example.test")]) :=
  claim2_connect_failure_only_error.1 noParsers connectFailEnv "example.test"
    rfl rfl (by decide) rfl

/-- Counterexample to C2 as stated: a non-2xx (404) response whose body
parses as a well-known document yields a delegation — the result is
built from the delegated name `dest.test` — rather than the claimed
no-delegation fall-through, which would have produced
`Host "example.test"`. -/
theorem claim2_counterexample :
    (resolve noParsers badStatusEnv "example.test").1 = .ok (.Host "dest.test") ∧
    Server.Host "dest.test" ≠ Server.Host "example.test" :=
  ⟨rfl, by decide⟩

/-- Counterexample to C4 as stated: a 404 on the server well-known
endpoint combined with no matching SRV record does not always return
`Host(original_name)` — when the 404 body parses as a delegation
document the code returns the delegated host instead. -/
theorem claim4_counterexample :
    (resolve noParsers delegating404Env "host.example").1 =
      .ok (.Host "delegated.example") ∧
    Server.Host "delegated.example" ≠ Server.Host "host.example" :=
  ⟨rfl, by decide⟩

/-- Witness for amended C4 at concrete inputs: 404 with unparseable
body plus no SRV record gives `Host` of the original name. -/
theorem claim4_witness :
    resolve noParsers plain404Env "host.example" =
      (.ok (.Host "host.example"),
       [.http (wellKnownUrl "host.example"),
        .dns (srvQueryName "host.example")]) :=
  ((claim4_no_delegation_srv_fallback.1 noParsers plain404Env "host.example"
      rfl rfl (by decide)
      (claim4_no_delegation_srv_fallback.2 plain404Env "host.example"
        (by decide))).2) rfl

/-- Witness for C9 at concrete inputs: a literal classification
performs no I/O. -/
theorem claim9_witness :
    (resolve noParsers quietEnv "example.test:1234").2 = [] :=
  claim9_single_shot_io_bounds.2 noParsers quietEnv "example.test:1234"
    (Or.inr (Or.inr (by decide)))

/-- Witness for C3 at concrete inputs: with the literal steps failed
and a delegation document for `dest.example:9999`, the result is
`HostPort` of the delegated name. -/
theorem claim3_witness :
    resolve noParsers delegatingHostPortEnv "example.test" =
      (.ok (.HostPort "dest.example:9999"),
       [.http (wellKnownUrl "example.test")]) :=
  (claim3_delegated_classification noParsers delegatingHostPortEnv "example.test"
      200 ⟨"dest.example:9999"⟩ rfl rfl (by decide) (by decide)).2.2.1
    ("dest.example", 9999) rfl rfl (by decide)

/-! ## SRV selection lemmas -/

theorem foldl_min_mem (rs : List SrvRecord) (r : SrvRecord) :
    rs.foldl minStep r ∈ r :: rs := by
  induction rs generalizing r with
  | nil => simp
  | cons x xs ih =>
    simp only [List.foldl_cons]
    rcases List.mem_cons.mp (ih (minStep r x)) with h1 | h1
    · rw [h1]
      unfold minStep
      split
      · exact List.mem_cons_of_mem _ (List.mem_cons_self _ _)
      · exact List.mem_cons_self _ _
    · exact List.mem_cons_of_mem _ (List.mem_cons_of_mem _ h1)

theorem foldl_min_le (rs : List SrvRecord) (r : SrvRecord) :
    ∀ y ∈ r :: rs, (rs.foldl minStep r).priority ≤ y.priority := by
  induction rs generalizing r with
  | nil =>
    intro y hy
    simp only [List.mem_singleton] at hy
    subst hy
    simp
  | cons x xs ih =>
    intro y hy
    simp only [List.foldl_cons]
    have hres := ih (minStep r x) (minStep r x) (List.mem_cons_self _ _)
    have hr : (minStep r x).priority ≤ r.priority := by
      unfold minStep
      split
      · next hlt => exact le_of_lt hlt
      · exact le_refl _
    have hx : (minStep r x).priority ≤ x.priority := by
      unfold minStep
      split
      · exact le_refl _
      · next hnlt => exact le_of_not_lt hnlt
    rcases List.mem_cons.mp hy with h | h
    · subst h
      exact le_trans hres hr
    rcases List.mem_cons.mp h with h2 | h2
    · subst h2
      exact le_trans hres hx
    · exact ih (minStep r x) y (List.mem_cons_of_mem _ h2)

theorem selectSrv_mem (l : List SrvRecord) (r : SrvRecord)
    (h : selectSrv l = some r) : r ∈ l := by
  cases l with
  | nil => simp [selectSrv] at h
  | cons a as =>
    simp only [selectSrv, Option.some_inj] at h
    exact h ▸ foldl_min_mem as a

theorem selectSrv_min (l : List SrvRecord) (r : SrvRecord)
    (h : selectSrv l = some r) : ∀ y ∈ l, r.priority ≤ y.priority := by
  cases l with
  | nil => simp [selectSrv] at h
  | cons a as =>
    simp only [selectSrv, Option.some_inj] at h
    exact h ▸ foldl_min_le as a

theorem minStep_reweight (g : SrvRecord → Nat) (a b : SrvRecord) :
    minStep (reweight g a) (reweight g b) = reweight g (minStep a b) := by
  unfold minStep reweight
  by_cases h : b.priority < a.priority <;> simp [h]

theorem foldl_min_reweight (g : SrvRecord → Nat) (rs : List SrvRecord)
    (r : SrvRecord) :
    (rs.map (reweight g)).foldl minStep (reweight g r) =
      reweight g (rs.foldl minStep r) := by
  induction rs generalizing r with
  | nil => rfl
  | cons x xs ih =>
    simp only [List.map_cons, List.foldl_cons, minStep_reweight]
    exact ih (minStep r x)

theorem selectSrv_reweight (g : SrvRecord → Nat) (l : List SrvRecord) :
    selectSrv (l.map (reweight g)) = (selectSrv l).map (reweight g) := by
  cases l with
  | nil => rfl
  | cons r rs => simp [selectSrv, foldl_min_reweight]

theorem srvFormat_reweight (g : SrvRecord → Nat) (r : SrvRecord) :
    srvFormat (reweight g r) = srvFormat r := rfl

theorem selectSrv_format_reweight (g : SrvRecord → Nat) (l : List SrvRecord) :
    (selectSrv (l.map (reweight g))).map srvFormat =
      (selectSrv l).map srvFormat := by
  rw [selectSrv_reweight]
  cases selectSrv l <;> simp [srvFormat_reweight]

/-- Claim C5: `srv_lookup` queries exactly `_matrix._tcp.<name>`; on
lookup error or an empty answer set it returns not-found; on a
non-empty answer set it returns `srvFormat` of a record of minimum
priority (`"<target-without-trailing-dot>:<port>"`); and the weight
fields are never consulted — reweighting every record arbitrarily
leaves the result unchanged. -/
theorem claim5_lowest_priority_selection :
    (∀ (env : ServerEnv) (name : String),
      (srv_lookup env name).2 = [.dns (srvQueryName name)]) ∧
    (∀ (env : ServerEnv) (name : String),
      env.srv (srvQueryName name) = none → (srv_lookup env name).1 = none) ∧
    (∀ (env : ServerEnv) (name : String),
      env.srv (srvQueryName name) = some [] → (srv_lookup env name).1 = none) ∧
    (∀ (env : ServerEnv) (name : String) (l : List SrvRecord),
      env.srv (srvQueryName name) = some l → l ≠ [] →
      ∃ r, r ∈ l ∧ (∀ y ∈ l, r.priority ≤ y.priority) ∧
        (srv_lookup env name).1 = some (srvFormat r)) ∧
    (∀ (g : SrvRecord → Nat) (env env2 : ServerEnv) (name : String),
      env2.srv (srvQueryName name) =
        (env.srv (srvQueryName name)).map (List.map (reweight g)) →
      (srv_lookup env2 name).1 = (srv_lookup env name).1) := by
  refine ⟨srv_lookup_snd, ?_, ?_, ?_, ?_⟩
  · intro env name h
    rw [srv_lookup_fst, h]
    rfl
  · intro env name h
    rw [srv_lookup_fst, h]
    rfl
  · intro env name l h hne
    cases l with
    | nil => exact absurd rfl hne
    | cons a as =>
      cases hsel : selectSrv (a :: as) with
      | none => simp [selectSrv] at hsel
      | some r =>
        refine ⟨r, selectSrv_mem _ _ hsel, selectSrv_min _ _ hsel, ?_⟩
        rw [srv_lookup_fst, h]
        simp [hsel]
  · intro g env env2 name h
    rw [srv_lookup_fst, srv_lookup_fst, h]
    cases env.srv (srvQueryName name) with
    | none => rfl
    | some l => simp [selectSrv_format_reweight]

/-- Witness for C5 at a concrete two-record answer set: the
lower-priority record is selected. -/
theorem claim5_witness :
    ∃ r, r ∈ twoRecords ∧ (∀ y ∈ twoRecords, r.priority ≤ y.priority) ∧
      (srv_lookup twoRecordEnv "example.test").1 = some (srvFormat r) :=
  claim5_lowest_priority_selection.2.2.2.1 twoRecordEnv "example.test"
    twoRecords rfl (by decide)

/-! ## Decimal rendering and `split_port` round-trip lemmas -/

theorem digit_isDigit (d : Nat) (h : d < 10) :
    (Char.ofNat (48 + d)).isDigit = true := by
  interval_cases d <;> decide

theorem digit_toNat (d : Nat) (h : d < 10) :
    (Char.ofNat (48 + d)).toNat = 48 + d := by
  interval_cases d <;> decide

theorem isDigit_ne_plus (c : Char) (h : c.isDigit = true) : c ≠ '+' := by
  intro e
  subst e
  exact absurd h (by decide)

theorem isDigit_ne_colon (c : Char) (h : c.isDigit = true) : c ≠ ':' := by
  intro e
  subst e
  exact absurd h (by decide)

theorem natToDecimalAux_digits :
    ∀ fuel n : Nat, n < fuel → ∀ c ∈ natToDecimalAux fuel n, c.isDigit = true := by
  intro fuel
  induction fuel with
  | zero => intro n h; exact absurd h (Nat.not_lt_zero n)
  | succ fuel ih =>
    intro n h c hc
    unfold natToDecimalAux at hc
    by_cases h10 : n < 10
    · rw [if_pos h10] at hc
      simp only [List.mem_singleton] at hc
      subst hc
      exact digit_isDigit n h10
    · rw [if_neg h10] at hc
      have hdiv : n / 10 < n := Nat.div_lt_self (by omega) (by omega)
      rcases List.mem_append.mp hc with hc | hc
      · exact ih (n / 10) (by omega) c hc
      · simp only [List.mem_singleton] at hc
        subst hc
        exact digit_isDigit (n % 10) (Nat.mod_lt _ (by omega))

theorem natToDecimalList_digits (n : Nat) :
    ∀ c ∈ natToDecimalList n, c.isDigit = true :=
  natToDecimalAux_digits (n + 1) n (Nat.lt_succ_self n)

theorem natToDecimalAux_ne_nil (fuel n : Nat) (h : n < fuel) :
    natToDecimalAux fuel n ≠ [] := by
  cases fuel with
  | zero => exact absurd h (Nat.not_lt_zero n)
  | succ fuel =>
    unfold natToDecimalAux
    by_cases h10 : n < 10 <;> simp [h10]

theorem natToDecimalList_ne_nil (n : Nat) : natToDecimalList n ≠ [] :=
  natToDecimalAux_ne_nil (n + 1) n (Nat.lt_succ_self n)

theorem natToDecimalAux_foldl :
    ∀ fuel n : Nat, n < fuel → ∀ a : Nat,
      (natToDecimalAux fuel n).foldl (fun acc c => acc * 10 + (c.toNat - 48)) a =
        a * 10 ^ (natToDecimalAux fuel n).length + n := by
  intro fuel
  induction fuel with
  | zero => intro n h; exact absurd h (Nat.not_lt_zero n)
  | succ fuel ih =>
    intro n h a
    by_cases h10 : n < 10
    · unfold natToDecimalAux
      simp only [if_pos h10, List.foldl_cons, List.foldl_nil, List.length_cons,
        List.length_nil, pow_one, digit_toNat n h10]
      omega
    · unfold natToDecimalAux
      have hdiv : n / 10 < n := Nat.div_lt_self (by omega) (by omega)
      simp only [if_neg h10, List.foldl_append, List.foldl_cons, List.foldl_nil,
        List.length_append, List.length_cons, List.length_nil]
      rw [ih (n / 10) (by omega) a,
        digit_toNat (n % 10) (Nat.mod_lt _ (by omega))]
      have hmod : n / 10 * 10 + n % 10 = n := by omega
      calc (a * 10 ^ (natToDecimalAux fuel (n / 10)).length + n / 10) * 10 +
            (48 + n % 10 - 48)
          = a * (10 ^ (natToDecimalAux fuel (n / 10)).length * 10) +
              (n / 10 * 10 + n % 10) := by ring_nf; omega
        _ = a * 10 ^ ((natToDecimalAux fuel (n / 10)).length + 0 + 1) + n := by
              rw [hmod, Nat.add_zero, pow_succ]

theorem natToDecimalList_foldl (n : Nat) :
    ∀ a : Nat,
      (natToDecimalList n).foldl (fun acc c => acc * 10 + (c.toNat - 48)) a =
        a * 10 ^ (natToDecimalList n).length + n :=
  natToDecimalAux_foldl (n + 1) n (Nat.lt_succ_self n)

theorem stripPlus_of_digits (ds : List Char)
    (h : ∀ c ∈ ds, c.isDigit = true) : stripPlus ds = ds := by
  cases ds with
  | nil => rfl
  | cons c t =>
    have hc : c ≠ '+' := isDigit_ne_plus c (h c (List.mem_cons_self _ _))
    unfold stripPlus
    rw [if_neg]
    simp [hc]

theorem parseU16Digits_natToDecimalList (n : Nat) (h : n < 65536) :
    parseU16Digits (natToDecimalList n) = some n := by
  unfold parseU16Digits
  rw [if_neg (natToDecimalList_ne_nil n)]
  rw [if_pos (List.all_eq_true.mpr (natToDecimalList_digits n))]
  simp only [natToDecimalList_foldl n 0, Nat.zero_mul, Nat.zero_add]
  rw [if_pos h]

theorem parseU16_natToDecimal (n : Nat) (h : n < 65536) :
    parseU16 (natToDecimal n) = some n := by
  unfold parseU16 natToDecimal
  have h1 : (String.mk (natToDecimalList n)).toList = natToDecimalList n := rfl
  rw [h1, stripPlus_of_digits _ (natToDecimalList_digits n),
    parseU16Digits_natToDecimalList n h]

/-! ## `splitChar` lemmas -/

theorem splitChar_no_sep (sep : Char) (l : List Char) (h : sep ∉ l) :
    splitChar sep l = [l] := by
  induction l with
  | nil => rfl
  | cons c rest ih =>
    have hc : c ≠ sep := fun e => h (by rw [← e]; exact List.mem_cons_self _ _)
    have hrest : sep ∉ rest := fun m => h (List.mem_cons_of_mem _ m)
    unfold splitChar
    rw [if_neg hc, ih hrest]

theorem splitChar_append (sep : Char) (a b : List Char) (ha : sep ∉ a) :
    splitChar sep (a ++ sep :: b) = a :: splitChar sep b := by
  induction a with
  | nil =>
    simp only [List.nil_append]
    conv_lhs => rw [splitChar]
    rw [if_pos rfl]
  | cons c t ih =>
    have hc : c ≠ sep := fun e => ha (by rw [← e]; exact List.mem_cons_self _ _)
    have ht : sep ∉ t := fun m => ha (List.mem_cons_of_mem _ m)
    simp only [List.cons_append]
    conv_lhs => rw [splitChar]
    rw [if_neg hc, ih ht]

/-! ## The `srvFormat` strings always satisfy the `socket` assertion
when the DNS target is colon-free -/

theorem srvFormat_toList (r : SrvRecord) :
    (srvFormat r).toList =
      (trimTrailingDots r.target).toList ++ ':' :: natToDecimalList r.port := by
  have h : (srvFormat r).toList =
      ((trimTrailingDots r.target).toList ++ [':']) ++ natToDecimalList r.port :=
    rfl
  rw [h, List.append_assoc]
  rfl

theorem split_port_srvFormat (r : SrvRecord)
    (hc : ':' ∉ (trimTrailingDots r.target).toList) (hp : r.port < 65536) :
    split_port (srvFormat r) = some (trimTrailingDots r.target, r.port) := by
  have hdig : ':' ∉ natToDecimalList r.port := fun hmem =>
    isDigit_ne_colon _ (natToDecimalList_digits r.port _ hmem) rfl
  unfold split_port
  rw [srvFormat_toList, splitChar_append ':' _ _ hc, splitChar_no_sep ':' _ hdig]
  have h2 : String.mk (natToDecimalList r.port) = natToDecimal r.port := rfl
  simp only [h2, parseU16_natToDecimal r.port hp]
  rfl

/-! ## Inversion: which strings `resolve` can put inside `HostPort`
and `Srv` -/

theorem resolve_hostPort_inv (P : Parsers) (env : ServerEnv) (name s : String)
    (h : (resolve P env name).1 = .ok (.HostPort s)) :
    (split_port s).isSome = true := by
  cases hs : P.socketAddr name with
  | some a => rw [resolve_socket_lit P env name a hs] at h; simp at h
  | none =>
  cases hi : P.ipAddr name with
  | some a => rw [resolve_ip_lit P env name a hs hi] at h; simp at h
  | none =>
  cases hp : split_port name with
  | some pr =>
    rw [resolve_hostport_lit P env name pr hs hi hp] at h
    simp only [Except.ok.injEq, Server.HostPort.injEq] at h
    rw [← h, hp]
    rfl
  | none =>
  cases hw : env.sendWellKnown (wellKnownUrl name) with
  | connectError => rw [resolve_connect_error P env name hs hi hp hw] at h; simp at h
  | otherError =>
    have h4 : (well_known env name).1 = .ok none := by
      rw [well_known_other env name hw]
    cases hsl : (srv_lookup env name).1 with
    | some t => rw [resolve_fallback_srv P env name t hs hi hp h4 hsl] at h; simp at h
    | none => rw [resolve_fallback_host P env name hs hi hp h4 hsl] at h; simp at h
  | response st doc =>
    cases doc with
    | none =>
      have h4 : (well_known env name).1 = .ok none := by
        rw [well_known_response env name st none hw]
      cases hsl : (srv_lookup env name).1 with
      | some t => rw [resolve_fallback_srv P env name t hs hi hp h4 hsl] at h; simp at h
      | none => rw [resolve_fallback_host P env name hs hi hp h4 hsl] at h; simp at h
    | some d =>
      cases hs2 : P.socketAddr d.server with
      | some a =>
        rw [resolve_delegated_socket P env name st d a hs hi hp hw hs2] at h
        simp at h
      | none =>
      cases hi2 : P.ipAddr d.server with
      | some a =>
        rw [resolve_delegated_ip P env name st d a hs hi hp hw hs2 hi2] at h
        simp at h
      | none =>
      cases hp2 : split_port d.server with
      | some pr =>
        rw [resolve_delegated_hostport P env name st d pr hs hi hp hw hs2 hi2 hp2] at h
        simp only [Except.ok.injEq, Server.HostPort.injEq] at h
        rw [← h, hp2]
        rfl
      | none =>
      cases hsl : (srv_lookup env d.server).1 with
      | some t =>
        rw [resolve_delegated_srv P env name st d t hs hi hp hw hs2 hi2 hp2 hsl] at h
        simp at h
      | none =>
        rw [resolve_delegated_host P env name st d hs hi hp hw hs2 hi2 hp2 hsl] at h
        simp at h

theorem resolve_srv_inv (P : Parsers) (env : ServerEnv) (name a hn : String)
    (h : (resolve P env name).1 = .ok (.Srv a hn)) :
    ∃ sname, (srv_lookup env sname).1 = some a := by
  cases hs : P.socketAddr name with
  | some x => rw [resolve_socket_lit P env name x hs] at h; simp at h
  | none =>
  cases hi : P.ipAddr name with
  | some x => rw [resolve_ip_lit P env name x hs hi] at h; simp at h
  | none =>
  cases hp : split_port name with
  | some pr => rw [resolve_hostport_lit P env name pr hs hi hp] at h; simp at h
  | none =>
  cases hw : env.sendWellKnown (wellKnownUrl name) with
  | connectError => rw [resolve_connect_error P env name hs hi hp hw] at h; simp at h
  | otherError =>
    have h4 : (well_known env name).1 = .ok none := by
      rw [well_known_other env name hw]
    cases hsl : (srv_lookup env name).1 with
    | some t =>
      rw [resolve_fallback_srv P env name t hs hi hp h4 hsl] at h
      simp only [Except.ok.injEq, Server.Srv.injEq] at h
      exact ⟨name, by rw [hsl, h.1]⟩
    | none => rw [resolve_fallback_host P env name hs hi hp h4 hsl] at h; simp at h
  | response st doc =>
    cases doc with
    | none =>
      have h4 : (well_known env name).1 = .ok none := by
        rw [well_known_response env name st none hw]
      cases hsl : (srv_lookup env name).1 with
      | some t =>
        rw [resolve_fallback_srv P env name t hs hi hp h4 hsl] at h
        simp only [Except.ok.injEq, Server.Srv.injEq] at h
        exact ⟨name, by rw [hsl, h.1]⟩
      | none => rw [resolve_fallback_host P env name hs hi hp h4 hsl] at h; simp at h
    | some d =>
      cases hs2 : P.socketAddr d.server with
      | some x =>
        rw [resolve_delegated_socket P env name st d x hs hi hp hw hs2] at h
        simp at h
      | none =>
      cases hi2 : P.ipAddr d.server with
      | some x =>
        rw [resolve_delegated_ip P env name st d x hs hi hp hw hs2 hi2] at h
        simp at h
      | none =>
      cases hp2 : split_port d.server with
      | some pr =>
        rw [resolve_delegated_hostport P env name st d pr hs hi hp hw hs2 hi2 hp2] at h
        simp at h
      | none =>
      cases hsl : (srv_lookup env d.server).1 with
      | some t =>
        rw [resolve_delegated_srv P env name st d t hs hi hp hw hs2 hi2 hp2 hsl] at h
        simp only [Except.ok.injEq, Server.Srv.injEq] at h
        exact ⟨d.server, by rw [hsl, h.1]⟩
      | none =>
        rw [resolve_delegated_host P env name st d hs hi hp hw hs2 hi2 hp2 hsl] at h
        simp at h

theorem srv_lookup_shape (env : ServerEnv) (sname a : String)
    (h : (srv_lookup env sname).1 = some a) :
    ∃ l r, env.srv (srvQueryName sname) = some l ∧ r ∈ l ∧ a = srvFormat r := by
  rw [srv_lookup_fst] at h
  cases he : env.srv (srvQueryName sname) with
  | none => rw [he] at h; simp at h
  | some l =>
    rw [he] at h
    have h2 : (selectSrv l).map srvFormat = some a := h
    cases hsel : selectSrv l with
    | none => rw [hsel] at h2; exact absurd h2 (by simp)
    | some r =>
      rw [hsel] at h2
      have h3 : some (srvFormat r) = some a := h2
      exact ⟨l, r, rfl, selectSrv_mem _ _ hsel, (Option.some_inj.mp h3).symm⟩

/-- Claim C10 as amended: every `HostPort` produced by `resolve` holds
a string accepted by `split_port`, so `socket` cannot panic on it; the
same holds for every `Srv` produced by `resolve` whenever the DNS
answer's targets are colon-free after trimming (the `u16` port bound is
immediate in Rust) — but a DNS target containing a colon breaks the
`Srv` assertion (see the counterexample), and `socket` panics on any
caller-constructed `HostPort`/`Srv` whose string lacks the `host:port`
shape. -/
theorem claim10_socket_split_assertions :
    (∀ (P : Parsers) (env : ServerEnv) (name s : String),
      (resolve P env name).1 = .ok (.HostPort s) →
      (split_port s).isSome = true) ∧
    (∀ (P : Parsers) (env : ServerEnv) (name a hn : String),
      (∀ q l r, env.srv q = some l → r ∈ l →
        ':' ∉ (trimTrailingDots r.target).toList ∧ r.port < 65536) →
      (resolve P env name).1 = .ok (.Srv a hn) →
      (split_port a).isSome = true) ∧
    (∀ aenv : AddrEnv, (socket aenv (.HostPort "badvalue")).1 = .panicked) ∧
    (∀ aenv : AddrEnv,
      (socket aenv (.Srv "badvalue" "host.example")).1 = .panicked) := by
  refine ⟨resolve_hostPort_inv, ?_, fun _ => rfl, fun _ => rfl⟩
  intro P env name a hn hwf h
  obtain ⟨sname, hsl⟩ := resolve_srv_inv P env name a hn h
  obtain ⟨l, r, hel, hmem, hfmt⟩ := srv_lookup_shape env sname a hsl
  obtain ⟨hc, hp⟩ := hwf _ l r hel hmem
  rw [hfmt, split_port_srvFormat r hc hp]
  rfl

/-- Counterexample to C10 as stated: an SRV answer whose target
contains a colon makes `resolve` produce a `Srv` value on which
`socket` panics, so the assertion does not hold for every
resolve-produced `Server`. -/
theorem claim10_counterexample :
    (resolve noParsers colonTargetEnv "example.test").1 =
      .ok (.Srv "a:b:1" "example.test") ∧
    (socket ⟨fun _ => some [.v4 1 2 3 4]⟩ (.Srv "a:b:1" "example.test")).1 =
      .panicked :=
  ⟨rfl, rfl⟩

/-- Witness for amended C10 at concrete inputs: a resolve-produced
`HostPort` and a resolve-produced `Srv` from a colon-free DNS target
both pass the `split_port` assertion. -/
theorem claim10_witness :
    (split_port "example.test:1234").isSome = true ∧
    (split_port "srv.dest:8448").isSome = true := by
  constructor
  · exact claim10_socket_split_assertions.1 noParsers quietEnv
      "example.test:1234" "example.test:1234" rfl
  · refine claim10_socket_split_assertions.2.1 noParsers goodSrvEnv
      "example.test" "srv.dest:8448" "example.test" ?_ rfl
    intro q l r hql hmem
    by_cases hq : q = srvQueryName "example.test"
    · subst hq
      have he : goodSrvEnv.srv (srvQueryName "example.test") =
          some [⟨0, 0, 8448, "srv.dest."⟩] := rfl
      rw [he, Option.some_inj] at hql
      subst hql
      simp only [List.mem_singleton] at hmem
      subst hmem
      exact ⟨by decide, by decide⟩
    · have he : goodSrvEnv.srv q = none := by
        simp only [goodSrvEnv, if_neg hq]
      rw [he] at hql
      exact absurd hql (by simp)

/-! ## `socket` lemmas -/

theorem lookupAndPair_cons (env : AddrEnv) (h : String) (p : Nat) (ip : IpAddr)
    (rest : List IpAddr) (hl : env.lookupIp h = some (ip :: rest)) :
    lookupAndPair env h p = (.ok ⟨ip, p⟩, [.dnsA h]) := by
  unfold lookupAndPair
  rw [hl]

theorem lookupAndPair_nil (env : AddrEnv) (h : String) (p : Nat)
    (hl : env.lookupIp h = some []) :
    lookupAndPair env h p = (.noRecords, [.dnsA h]) := by
  unfold lookupAndPair
  rw [hl]

theorem lookupAndPair_err (env : AddrEnv) (h : String) (p : Nat)
    (hl : env.lookupIp h = none) :
    lookupAndPair env h p = (.resolveError, [.dnsA h]) := by
  unfold lookupAndPair
  rw [hl]

theorem socket_host (env : AddrEnv) (h : String) :
    socket env (.Host h) = lookupAndPair env h 8448 := rfl

theorem socket_hostPort (env : AddrEnv) (s h : String) (p : Nat)
    (hsp : split_port s = some (h, p)) :
    socket env (.HostPort s) = lookupAndPair env h p := by
  unfold socket
  dsimp only
  rw [hsp]

theorem socket_srv (env : AddrEnv) (a hn h : String) (p : Nat)
    (hsp : split_port a = some (h, p)) :
    socket env (.Srv a hn) = lookupAndPair env h p := by
  unfold socket
  dsimp only
  rw [hsp]

theorem lookupAndPair_noRecords_iff (env : AddrEnv) (h : String) (p : Nat) :
    (lookupAndPair env h p).1 = .noRecords ↔ env.lookupIp h = some [] := by
  cases hl : env.lookupIp h with
  | none => rw [lookupAndPair_err env h p hl]; simp
  | some l =>
    cases l with
    | nil => rw [lookupAndPair_nil env h p hl]; simp
    | cons ip rest => rw [lookupAndPair_cons env h p ip rest hl]; simp

/-- Claim C6: `socket` returns `Ip` paired with port 8448 and `Socket`
unchanged, both without any lookup; for `Host`, `HostPort` (whose
string `split_port` accepts as `(h, p)`) and `Srv` (likewise) it looks
up the host part, pairs the first returned address with the known port
(8448 for `Host`), and the "no records" error occurs exactly when the
lookup returns an empty answer set. -/
theorem claim6_socket_address_resolution :
    (∀ (env : AddrEnv) (ip : IpAddr),
      socket env (.Ip ip) = (.ok ⟨ip, 8448⟩, [])) ∧
    (∀ (env : AddrEnv) (s : SocketAddr),
      socket env (.Socket s) = (.ok s, [])) ∧
    (∀ (env : AddrEnv) (h : String) (ip : IpAddr) (rest : List IpAddr),
      env.lookupIp h = some (ip :: rest) →
      socket env (.Host h) = (.ok ⟨ip, 8448⟩, [.dnsA h])) ∧
    (∀ (env : AddrEnv) (s h : String) (p : Nat) (ip : IpAddr)
        (rest : List IpAddr),
      split_port s = some (h, p) → env.lookupIp h = some (ip :: rest) →
      socket env (.HostPort s) = (.ok ⟨ip, p⟩, [.dnsA h])) ∧
    (∀ (env : AddrEnv) (a hn h : String) (p : Nat) (ip : IpAddr)
        (rest : List IpAddr),
      split_port a = some (h, p) → env.lookupIp h = some (ip :: rest) →
      socket env (.Srv a hn) = (.ok ⟨ip, p⟩, [.dnsA h])) ∧
    (∀ (env : AddrEnv) (h : String),
      (socket env (.Host h)).1 = .noRecords ↔ env.lookupIp h = some []) ∧
    (∀ (env : AddrEnv) (s h : String) (p : Nat),
      split_port s = some (h, p) →
      ((socket env (.HostPort s)).1 = .noRecords ↔
        env.lookupIp h = some [])) ∧
    (∀ (env : AddrEnv) (a hn h : String) (p : Nat),
      split_port a = some (h, p) →
      ((socket env (.Srv a hn)).1 = .noRecords ↔
        env.lookupIp h = some [])) := by
  refine ⟨fun _ _ => rfl, fun _ _ => rfl, ?_, ?_, ?_, ?_, ?_, ?_⟩
  · intro env h ip rest hl
    rw [socket_host, lookupAndPair_cons env h 8448 ip rest hl]
  · intro env s h p ip rest hsp hl
    rw [socket_hostPort env s h p hsp, lookupAndPair_cons env h p ip rest hl]
  · intro env a hn h p ip rest hsp hl
    rw [socket_srv env a hn h p hsp, lookupAndPair_cons env h p ip rest hl]
  · intro env h
    rw [socket_host]
    exact lookupAndPair_noRecords_iff env h 8448
  · intro env s h p hsp
    rw [socket_hostPort env s h p hsp]
    exact lookupAndPair_noRecords_iff env h p
  · intro env a hn h p hsp
    rw [socket_srv env a hn h p hsp]
    exact lookupAndPair_noRecords_iff env h p

/-- Witness for C6 at concrete inputs. -/
theorem claim6_witness :
    socket oneAddrEnv (.Host "example.test") =
      (.ok ⟨.v4 9 9 9 9, 8448⟩, [.dnsA "example.test"]) ∧
    socket oneAddrEnv (.HostPort "example.test:1234") =
      (.ok ⟨.v4 9 9 9 9, 1234⟩, [.dnsA "example.test"]) ∧
    ((socket emptyAddrEnv (.Host "example.test")).1 = .noRecords ↔
      emptyAddrEnv.lookupIp "example.test" = some []) :=
  ⟨claim6_socket_address_resolution.2.2.1 oneAddrEnv "example.test" _ _ rfl,
   claim6_socket_address_resolution.2.2.2.1 oneAddrEnv "example.test:1234"
     "example.test" 1234 _ _ (by decide) rfl,
   claim6_socket_address_resolution.2.2.2.2.2.1 emptyAddrEnv "example.test"⟩

/-! ## Client path -/

/-- Claim C7: a 404 response on `.well-known/matrix/client` is a
success whose result is the parsed URL of the input domain itself,
reached after exactly one HTTP request — no delegation and no
validation requests. -/
theorem claim7_client_404_bare_domain :
    ∀ (env : ClientEnv) (name url wkUrl : String) (resp : ClientResponse),
      env.parseUrl ("https://" ++ name) = some url →
      env.joinUrl url ".well-known/matrix/client" = some wkUrl →
      env.send wkUrl = some resp →
      resp.status = 404 →
      clientResolve env name = (.ok url, [.http wkUrl]) := by
  intro env name url wkUrl resp h1 h2 h3 h4
  unfold clientResolve
  simp only [h1, h2, h3]
  rw [if_pos h4]

/-- Witness for C7 at concrete inputs. -/
theorem claim7_witness :
    clientResolve notFoundClientEnv "example.test" =
      (.ok "https://example.test",
       [.http "https://example.test/.well-known/matrix/client"]) :=
  claim7_client_404_bare_domain notFoundClientEnv "example.test" _ _ _
    rfl rfl rfl rfl

/-- Claim C8: the client resolver's two failure tiers.  A transport
error on the well-known fetch or a body that does not parse as the
client document yields `Prompt`; a malformed homeserver base URL, any
failure (network or parse) of the mandatory `/versions` fetch, and an
error status from the optional identity-server validation all yield
`Fail`; and both success cases — no identity-server entry, or an
identity-server entry whose validation returns a non-error status —
return the validated homeserver base URL, not the identity URL. -/
theorem claim8_client_failure_tiers :
    (∀ (env : ClientEnv) (name url wkUrl : String),
      env.parseUrl ("https://" ++ name) = some url →
      env.joinUrl url ".well-known/matrix/client" = some wkUrl →
      env.send wkUrl = none →
      clientResolve env name = (.error .Prompt, [.http wkUrl])) ∧
    (∀ (env : ClientEnv) (name url wkUrl : String) (resp : ClientResponse),
      env.parseUrl ("https://" ++ name) = some url →
      env.joinUrl url ".well-known/matrix/client" = some wkUrl →
      env.send wkUrl = some resp →
      resp.status ≠ 404 → resp.clientDoc = none →
      clientResolve env name = (.error .Prompt, [.http wkUrl])) ∧
    (∀ (env : ClientEnv) (name url wkUrl : String) (resp : ClientResponse)
        (wk : ClientWellKnown),
      env.parseUrl ("https://" ++ name) = some url →
      env.joinUrl url ".well-known/matrix/client" = some wkUrl →
      env.send wkUrl = some resp →
      resp.status ≠ 404 → resp.clientDoc = some wk →
      env.parseUrl wk.homeserver.base_url = none →
      clientResolve env name = (.error (.Fail .Url), [.http wkUrl])) ∧
    (∀ (env : ClientEnv) (name url wkUrl base vUrl : String)
        (resp : ClientResponse) (wk : ClientWellKnown),
      env.parseUrl ("https://" ++ name) = some url →
      env.joinUrl url ".well-known/matrix/client" = some wkUrl →
      env.send wkUrl = some resp →
      resp.status ≠ 404 → resp.clientDoc = some wk →
      env.parseUrl wk.homeserver.base_url = some base →
      env.joinUrl base "_matrix/client/versions" = some vUrl →
      env.send vUrl = none →
      clientResolve env name =
        (.error (.Fail .Http), [.http wkUrl, .http vUrl])) ∧
    (∀ (env : ClientEnv) (name url wkUrl base vUrl : String)
        (resp vresp : ClientResponse) (wk : ClientWellKnown),
      env.parseUrl ("https://" ++ name) = some url →
      env.joinUrl url ".well-known/matrix/client" = some wkUrl →
      env.send wkUrl = some resp →
      resp.status ≠ 404 → resp.clientDoc = some wk →
      env.parseUrl wk.homeserver.base_url = some base →
      env.joinUrl base "_matrix/client/versions" = some vUrl →
      env.send vUrl = some vresp → vresp.versionsDoc = none →
      clientResolve env name =
        (.error (.Fail .Http), [.http wkUrl, .http vUrl])) ∧
    (∀ (env : ClientEnv) (name url wkUrl base vUrl iurl ivUrl : String)
        (resp vresp iresp : ClientResponse) (wk : ClientWellKnown)
        (v : Versions) (ident : IdentityServerInfo),
      env.parseUrl ("https://" ++ name) = some url →
      env.joinUrl url ".well-known/matrix/client" = some wkUrl →
      env.send wkUrl = some resp →
      resp.status ≠ 404 → resp.clientDoc = some wk →
      env.parseUrl wk.homeserver.base_url = some base →
      env.joinUrl base "_matrix/client/versions" = some vUrl →
      env.send vUrl = some vresp → vresp.versionsDoc = some v →
      wk.identity_server = some ident →
      env.parseUrl ident.base_url = some iurl →
      env.joinUrl iurl "_matrix/identity/api/v1" = some ivUrl →
      env.send ivUrl = some iresp →
      400 ≤ iresp.status → iresp.status < 600 →
      clientResolve env name =
        (.error (.Fail .Http), [.http wkUrl, .http vUrl, .http ivUrl])) ∧
    (∀ (env : ClientEnv) (name url wkUrl base vUrl : String)
        (resp vresp : ClientResponse) (wk : ClientWellKnown) (v : Versions),
      env.parseUrl ("https://" ++ name) = some url →
      env.joinUrl url ".well-known/matrix/client" = some wkUrl →
      env.send wkUrl = some resp →
      resp.status ≠ 404 → resp.clientDoc = some wk →
      env.parseUrl wk.homeserver.base_url = some base →
      env.joinUrl base "_matrix/client/versions" = some vUrl →
      env.send vUrl = some vresp → vresp.versionsDoc = some v →
      wk.identity_server = none →
      clientResolve env name = (.ok base, [.http wkUrl, .http vUrl])) ∧
    (∀ (env : ClientEnv) (name url wkUrl base vUrl iurl ivUrl : String)
        (resp vresp iresp : ClientResponse) (wk : ClientWellKnown)
        (v : Versions) (ident : IdentityServerInfo),
      env.parseUrl ("https://" ++ name) = some url →
      env.joinUrl url ".well-known/matrix/client" = some wkUrl →
      env.send wkUrl = some resp →
      resp.status ≠ 404 → resp.clientDoc = some wk →
      env.parseUrl wk.homeserver.base_url = some base →
      env.joinUrl base "_matrix/client/versions" = some vUrl →
      env.send vUrl = some vresp → vresp.versionsDoc = some v →
      wk.identity_server = some ident →
      env.parseUrl ident.base_url = some iurl →
      env.joinUrl iurl "_matrix/identity/api/v1" = some ivUrl →
      env.send ivUrl = some iresp →
      ¬(400 ≤ iresp.status ∧ iresp.status < 600) →
      clientResolve env name =
        (.ok base, [.http wkUrl, .http vUrl, .http ivUrl])) := by
  refine ⟨?_, ?_, ?_, ?_, ?_, ?_, ?_, ?_⟩
  · intro env name url wkUrl h1 h2 h3
    unfold clientResolve
    simp only [h1, h2, h3]
  · intro env name url wkUrl resp h1 h2 h3 h4 h5
    unfold clientResolve
    simp only [h1, h2, h3]
    rw [if_neg h4]
    simp only [h5]
  · intro env name url wkUrl resp wk h1 h2 h3 h4 h5 h6
    unfold clientResolve
    simp only [h1, h2, h3]
    rw [if_neg h4]
    simp only [h5, h6]
  · intro env name url wkUrl base vUrl resp wk h1 h2 h3 h4 h5 h6 h7 h8
    unfold clientResolve
    simp only [h1, h2, h3]
    rw [if_neg h4]
    simp only [h5, h6, h7, h8]
  · intro env name url wkUrl base vUrl resp vresp wk h1 h2 h3 h4 h5 h6 h7 h8 h9
    unfold clientResolve
    simp only [h1, h2, h3]
    rw [if_neg h4]
    simp only [h5, h6, h7, h8, h9]
  · intro env name url wkUrl base vUrl iurl ivUrl resp vresp iresp wk v ident
      h1 h2 h3 h4 h5 h6 h7 h8 h9 h10 h11 h12 h13 h14 h15
    unfold clientResolve
    simp only [h1, h2, h3]
    rw [if_neg h4]
    simp only [h5, h6, h7, h8, h9, h10, h11, h12, h13]
    rw [if_pos ⟨h14, h15⟩]
  · intro env name url wkUrl base vUrl resp vresp wk v
      h1 h2 h3 h4 h5 h6 h7 h8 h9 h10
    unfold clientResolve
    simp only [h1, h2, h3]
    rw [if_neg h4]
    simp only [h5, h6, h7, h8, h9, h10]
  · intro env name url wkUrl base vUrl iurl ivUrl resp vresp iresp wk v ident
      h1 h2 h3 h4 h5 h6 h7 h8 h9 h10 h11 h12 h13 h14
    unfold clientResolve
    simp only [h1, h2, h3]
    rw [if_neg h4]
    simp only [h5, h6, h7, h8, h9, h10, h11, h12, h13]
    rw [if_neg h14]

/-- Witness for C8 at concrete inputs: both success cases return the
validated delegated homeserver base URL — without an identity-server
entry, and with one whose validation returns 200. -/
theorem claim8_witness :
    clientResolve happyClientEnv "example.test" =
      (.ok "https://hs.test",
       [.http "https://example.test/.well-known/matrix/client",
        .http "https://hs.test/_matrix/client/versions"]) ∧
    clientResolve identClientEnv "example.test" =
      (.ok "https://hs.test",
       [.http "https://example.test/.well-known/matrix/client",
        .http "https://hs.test/_matrix/client/versions",
        .http "https://id.test/_matrix/identity/api/v1"]) :=
  ⟨claim8_client_failure_tiers.2.2.2.2.2.2.1 happyClientEnv "example.test"
     _ _ _ _ _ _ ⟨⟨"https://hs.test"⟩, none⟩ ⟨["r0.0.1"], []⟩
     rfl rfl rfl (by decide) rfl rfl rfl rfl rfl rfl,
   claim8_client_failure_tiers.2.2.2.2.2.2.2 identClientEnv "example.test"
     _ _ _ _ _ _ _ _ _ ⟨⟨"https://hs.test"⟩, some ⟨"https://id.test"⟩⟩
     ⟨["r0.0.1"], []⟩ ⟨"https://id.test"⟩
     rfl rfl rfl (by decide) rfl rfl rfl rfl rfl rfl rfl rfl rfl (by decide)⟩

end MatrixOracle
